import Mathlib

/-!
Verification of the `dizzybot` client library (`dizzybot.py`) against its
natural-language specification.

The embedding below translates the `Dizzybot` class into pure Lean
definitions.  The external collaborators the spec excludes from the core
(the HTTP client, the websocket transport, JSON encoding, the tornado
timer) are modelled as follows:

* JSON values exchanged on the wire are modelled by the inductive `Value`
  (already-decoded data; JSON text encoding is external to the core).
  Opaque Python runtime objects that end up inside diagnostic log entries
  (exception objects, HTTP response objects) are modelled by `Value.ext`.
* Python dictionaries are association lists (`Dict`) with Python's
  assignment (`Dict.set`, replace-in-place-or-append) and `dict.update`
  (`Dict.update`) semantics.
* The mutable fields of a `Dizzybot` instance become the record
  `BotState`.  The live websocket handle is modelled by the flag
  `wsConnected` plus the trace `wsWrites` of envelopes written on the
  socket; rich HTTP posts are traced in `httpPosts`; calls to
  `websocket_connect` are traced in `connectAttempts` and HTTP fetches of
  the session endpoint in `fetchAttempts`.
* Python exceptions raised by a method are modelled by returning the
  state at the raise point together with an `Option DizzyError`
  (or an `Except DizzyError` result); `none`/`.ok` means a normal return.
* The three overridable application hooks are a `Hooks` record; a hook
  observes the bot state at its call site and either returns normally
  (`none`) or raises an exception with message `some ex`.  Hooks do not
  mutate the manager's state.
-/

/-- A decoded JSON-like value, plus `ext` for opaque Python runtime objects
(exception objects, HTTP response objects) that get stored in log entries. -/
inductive Value where
  | null : Value
  | bool : Bool → Value
  | int : Int → Value
  | str : String → Value
  | obj : List (String × Value) → Value
  | ext : String → Value

/-- A Python dictionary with string keys, in insertion order. -/
abbrev Dict := List (String × Value)

/-- Lookup: first (and, for genuine Python dicts, only) binding of a key. -/
def Dict.get? : Dict → String → Option Value
  | [], _ => none
  | (k, v) :: rest, key => if k = key then some v else Dict.get? rest key

/-- Python `d.get(key, default)`. -/
def Dict.getD (d : Dict) (key : String) (dflt : Value) : Value :=
  match Dict.get? d key with
  | some v => v
  | none => dflt

/-- Python assignment `d[key] = val`: replace in place if the key exists,
otherwise append at the end. -/
def Dict.set : Dict → String → Value → Dict
  | [], key, val => [(key, val)]
  | (k, v) :: rest, key, val =>
      if k = key then (k, val) :: rest else (k, v) :: Dict.set rest key val

/-- Python `base.update(other)`: assign every binding of `other` into `base`,
in order. -/
def Dict.update (base other : Dict) : Dict :=
  other.foldl (fun acc kv => Dict.set acc kv.1 kv.2) base

/-- Python `v == "s"` for an arbitrary value `v` and a string literal. -/
def Value.eqStr : Value → String → Bool
  | .str s, t => s == t
  | _, _ => false

/-- Python `v is None`. -/
def Value.isNull : Value → Bool
  | .null => true
  | _ => false

/-- Python truthiness of a value (`if not info['ok']`). -/
def Value.truthy : Value → Bool
  | .null => false
  | .bool b => b
  | .int n => n != 0
  | .str s => !(s == "")
  | .obj kvs => !kvs.isEmpty
  | .ext _ => true

/-- The argument passed as `msg` to `respond`/`send`: Python code dispatches
on `isinstance(msg, dict)` / `isinstance(msg, str)`; `other` stands for any
value of a different runtime type. -/
inductive Msg where
  | dict : Dict → Msg
  | str : String → Msg
  | other : Msg

/-- `true` for the message argument types `respond`/`send` accept. -/
def Msg.isValid : Msg → Bool
  | .other => false
  | _ => true

/-- Python exceptions that the translated methods can raise. -/
inductive DizzyError where
  | typeError : String → DizzyError
  | attributeError : String → DizzyError
  | nameError : String → DizzyError
  | keyError : String → DizzyError
  | runtimeError : DizzyError
  deriving Repr, DecidableEq

/-- The mutable state of one `Dizzybot` instance, together with the traces
of its interactions with the external transports. -/
structure BotState where
  token : String
  wsConnected : Bool
  recent : List Value
  maxRecent : Nat
  msgId : Nat
  wsWrites : List Dict
  httpPosts : List Dict
  connectAttempts : List Value
  fetchAttempts : Nat

/-- The three overridable application hooks.  Each observes the bot state at
its call site; `some ex` means the hook raised an exception `ex`. -/
structure Hooks where
  on_connect : BotState → Option String
  on_event : BotState → Value → Option String
  on_disconnect : BotState → Option String

/-- An HTTP response delivered to `_on_rtm_start`: status code plus the
already-decoded JSON body. -/
structure HttpResp where
  code : Nat
  body : Value

/-- `collections.deque(maxlen := cap)` append: keep at most the last `cap`
elements (under the invariant that the buffer already holds at most `cap`,
this drops exactly the oldest element when full, and keeps an empty buffer
empty when `cap = 0`). -/
def dequeAppend (cap : Nat) (buf : List Value) (e : Value) : List Value :=
  (buf ++ [e]).drop (buf.length + 1 - cap)

/-- `Dizzybot.__init__`: fresh state (the heartbeat timer itself is an
external collaborator and is not part of the state). -/
def dizzybotInit (token : String) (max_recent : Nat := 50) : BotState :=
  { token := token
    wsConnected := false
    recent := []
    maxRecent := max_recent
    msgId := 0
    wsWrites := []
    httpPosts := []
    connectAttempts := []
    fetchAttempts := 0 }

/-- The diagnostic entry logged on the stream-closure sentinel. -/
def discEvt : Value :=
  .obj [("type", .str "log"), ("text", .str "disconnected from websocket")]

/-- The diagnostic entry logged when the websocket connect future resolves. -/
def connEvt : Value :=
  .obj [("type", .str "log"), ("text", .str "connected to websocket url")]

/-- The diagnostic entry logged before calling `websocket_connect`. -/
def connectingEvt : Value :=
  .obj [("type", .str "log"), ("text", .str "connecting to websocket url")]

/-- The diagnostic entry logged by `_rtm_start` before the endpoint fetch. -/
def fetchingEvt : Value :=
  .obj [("type", .str "log"), ("text", .str "fetching websocket url")]

/-- The diagnostic entry logged by `_on_check_health` before reconnecting. -/
def reconnectingEvt : Value :=
  .obj [("type", .str "log"), ("text", .str "reconnecting websocket")]

/-- The diagnostic entry logged when a hook raises exception `ex`. -/
def excEvt (ex : String) : Value :=
  .obj [("type", .str "exception"), ("exception", .ext ex)]

/-- The diagnostic entry logged on an HTTP fetch status `>= 400` (the
`error` field holds the opaque response object). -/
def fetchFailEvt (resp : HttpResp) : Value :=
  .obj [("type", .str "log"), ("text", .str "failed to fetch websocket url"),
        ("error", .ext ("HTTPResponse " ++ toString resp.code))]

/-- The diagnostic entry logged when the decoded body's `ok` flag is falsy. -/
def rtmFailEvt (info : Dict) : Value :=
  .obj [("type", .str "log"), ("text", .str "rtm.connect failed"),
        ("error", .obj info)]

/-- `evt.get('thread_ts', evt.get('ts'))`: the thread anchor `respond`
infers for a threaded reply. -/
def threadAnchor (evt : Dict) : Value :=
  Dict.getD evt "thread_ts" (Dict.getD evt "ts" Value.null)

/-- The negation of the guard on line 74 of `dizzybot.py`:
`evt.get('type') != 'message' or evt.get('reply_to') is not None`. -/
def isEligible (evt : Dict) : Bool :=
  Value.eqStr (Dict.getD evt "type" Value.null) "message" &&
  Value.isNull (Dict.getD evt "reply_to" Value.null)

namespace Dizzybot

/-- `Dizzybot.log`: store an event in the ring buffer. -/
def log (st : BotState) (evt : Value) : BotState :=
  { st with recent := dequeAppend st.maxRecent st.recent evt }

/-- `Dizzybot.post_message`: force `as_user` and POST the message to the
chat endpoint (the POST itself is external; we trace its JSON body). -/
def post_message (st : BotState) (msg : Dict) : BotState :=
  { st with httpPosts := st.httpPosts ++ [Dict.set msg "as_user" (.bool true)] }

/-- `Dizzybot.respond`.  Returns the state at exit together with
`.ok none` (ineligible event), `.ok (some id)`, or a raised exception. -/
def respond (st : BotState) (evt : Dict) (msg : Msg)
    (thread : Bool := true) (rich : Bool := false) :
    BotState × Except DizzyError (Option Nat) :=
  if !(isEligible evt) then (st, .ok none)
  else
    let msg_id := st.msgId
    match Dict.get? evt "channel" with
    | none => (st, .error (.keyError "channel"))
    | some ch =>
      let full_msg : Dict :=
        [("id", Value.int msg_id), ("type", Value.str "message"), ("channel", ch)]
      match (match msg with
             | .dict d => Except.ok (Dict.update full_msg d)
             | .str s => Except.ok (Dict.set full_msg "text" (Value.str s))
             | .other => Except.error (DizzyError.typeError "unsupported msg type")) with
      | .error e => (st, .error e)
      | .ok full_msg' =>
        let full_msg' :=
          if thread then Dict.set full_msg' "thread_ts" (threadAnchor evt)
          else full_msg'
        if rich then
          ({ post_message st full_msg' with msgId := st.msgId + 1 }, .ok (some msg_id))
        else
          if st.wsConnected then
            ({ st with wsWrites := st.wsWrites ++ [full_msg'],
                       msgId := st.msgId + 1 }, .ok (some msg_id))
          else
            (st, .error (.attributeError "write_message"))

/-- `Dizzybot.send`. -/
def send (st : BotState) (msg : Msg) (channel : String) (rich : Bool := false) :
    BotState × Except DizzyError Nat :=
  let msg_id := st.msgId
  let full_msg : Dict :=
    [("id", Value.int msg_id), ("type", Value.str "message"),
     ("channel", Value.str channel)]
  match (match msg with
         | .dict d => Except.ok (Dict.update full_msg d)
         | .str s => Except.ok (Dict.set full_msg "text" (Value.str s))
         | .other => Except.error (DizzyError.typeError "unsupported msg type")) with
  | .error e => (st, .error e)
  | .ok full_msg' =>
    if rich then
      ({ post_message st full_msg' with msgId := st.msgId + 1 }, .ok msg_id)
    else
      if st.wsConnected then
        ({ st with wsWrites := st.wsWrites ++ [full_msg'],
                   msgId := st.msgId + 1 }, .ok msg_id)
      else
        (st, .error (.attributeError "write_message"))

/-- `Dizzybot.write`, translated faithfully: after injecting the id into the
caller's dictionary, both delivery branches reference the variable
`full_msg`, which is not defined in this method (it belongs to
`send`/`respond`), so the method raises `NameError` — except that on the
non-rich path with no live handle, Python evaluates `self.ws.write_message`
first and an `AttributeError` wins. -/
def write (st : BotState) (msg : Dict) (rich : Bool := false) :
    BotState × Except DizzyError Nat :=
  let msg_id := st.msgId
  let _injected := Dict.set msg "id" (Value.int msg_id)
  if rich then (st, .error (.nameError "full_msg"))
  else
    if st.wsConnected then (st, .error (.nameError "full_msg"))
    else (st, .error (.attributeError "write_message"))

/-- `Dizzybot._on_ws_message`: `none` is the stream-closure sentinel,
`some evt` an already-decoded inbound frame. -/
def on_ws_message (hooks : Hooks) (st : BotState) (msg : Option Value) : BotState :=
  match msg with
  | none =>
    let st1 := log st discEvt
    let st2 := { st1 with wsConnected := false }
    match hooks.on_disconnect st2 with
    | some ex => log st2 (excEvt ex)
    | none => st2
  | some evt =>
    let st1 := log st evt
    match hooks.on_event st1 evt with
    | some ex => log st1 (excEvt ex)
    | none => st1

/-- `Dizzybot._on_ws_connect`, for a successfully resolved connect future:
log, store the handle, then run the connect hook under `try/except`. -/
def on_ws_connect (hooks : Hooks) (st : BotState) : BotState :=
  let st1 := log st connEvt
  let st2 := { st1 with wsConnected := true }
  match hooks.on_connect st2 with
  | some ex => log st2 (excEvt ex)
  | none => st2

/-- `Dizzybot._on_rtm_start`: handle the session-endpoint fetch response.
Returns the state at exit plus `some e` when the method raises `e`. -/
def on_rtm_start (st : BotState) (resp : HttpResp) : BotState × Option DizzyError :=
  if 400 ≤ resp.code then
    (log st (fetchFailEvt resp), some .runtimeError)
  else
    match resp.body with
    | .obj info =>
      match Dict.get? info "ok" with
      | none => (st, some (.keyError "ok"))
      | some okv =>
        if Value.truthy okv = false then
          (log st (rtmFailEvt info), some .runtimeError)
        else
          let st1 := log st connectingEvt
          match Dict.get? info "url" with
          | none => (st1, some (.keyError "url"))
          | some url =>
            ({ st1 with connectAttempts := st1.connectAttempts ++ [url] }, none)
    | _ => (st, some (.typeError "value is not subscriptable"))

/-- `Dizzybot._rtm_start`: log and issue the session-endpoint fetch (the
fetch itself is external; we count its initiation). -/
def rtm_start (st : BotState) : BotState :=
  { log st fetchingEvt with fetchAttempts := st.fetchAttempts + 1 }

/-- `Dizzybot._on_check_health`: if the handle is absent, log and schedule
`_rtm_start` on the event loop (which, being serialized, runs it next). -/
def on_check_health (st : BotState) : BotState :=
  if st.wsConnected then st
  else rtm_start (log st reconnectingEvt)

end Dizzybot

/-- One outbound-surface call in a sequence. -/
inductive Op where
  | sendOp : Msg → String → Bool → Op
  | respondOp : Dict → Msg → Bool → Bool → Op
  | writeOp : Dict → Bool → Op

/-- Run one outbound call; `.ok none` is `respond`'s null return. -/
def runOp (st : BotState) : Op → BotState × Except DizzyError (Option Nat)
  | .sendOp m ch r =>
    let res := Dizzybot.send st m ch r
    (res.1, res.2.map some)
  | .respondOp evt m th r => Dizzybot.respond st evt m th r
  | .writeOp m r =>
    let res := Dizzybot.write st m r
    (res.1, res.2.map some)

/-- Run a sequence of outbound calls, collecting the returned ids and
stopping at the first raised exception. -/
def runOps (st : BotState) : List Op → BotState × Except DizzyError (List Nat)
  | [] => (st, .ok [])
  | op :: ops =>
    match runOp st op with
    | (st', .ok i) =>
      match runOps st' ops with
      | (st'', .ok ids) => (st'', .ok (i.toList ++ ids))
      | (st'', .error e) => (st'', .error e)
    | (st', .error e) => (st', .error e)

/-- `true` when a diagnostic entry is tagged `log`. -/
def logTagged : Value → Bool
  | .obj kvs => Value.eqStr (Dict.getD kvs "type" Value.null) "log"
  | _ => false

/-- For a structured payload, the thread anchor the caller supplied (if
any); a plain-text payload supplies none. -/
def Msg.suppliedThread : Msg → Option Value
  | .dict d => Dict.get? d "thread_ts"
  | _ => none

/-- Keys of a structured payload are distinct (always true of a payload
built from a genuine Python dict). -/
def Msg.keysNodup : Msg → Prop
  | .dict d => (d.map Prod.fst).Nodup
  | _ => True

/-- A fresh client instance. -/
def st0 : BotState := dizzybotInit "xoxb-token" 50

/-- A client instance with a live websocket handle. -/
def stLive : BotState := { st0 with wsConnected := true }

/-- Hooks that raise on every invocation. -/
def boomHooks : Hooks :=
  { on_connect := fun _ => some "boom"
    on_event := fun _ _ => some "boom"
    on_disconnect := fun _ => some "boom" }

/-- A raw near-complete envelope as `write`'s caller would supply. -/
def rawMsg : Dict :=
  [("type", Value.str "message"), ("channel", Value.str "C123"),
   ("text", Value.str "hi")]

/-- A fetch response with HTTP status 500. -/
def resp500 : HttpResp := { code := 500, body := Value.null }

/-- An inbound event that is not a plain channel message. -/
def evtIneligible : Dict := [("type", Value.str "presence_change")]

/-- An eligible inbound message event carrying a timestamp but no thread
anchor. -/
def evtMsg : Dict :=
  [("type", Value.str "message"), ("channel", Value.str "C9"),
   ("ts", Value.str "111.222")]

/-- A send-then-write call sequence on a connected client. -/
def opsC1 : List Op :=
  [.sendOp (.str "hi") "C123" false, .writeOp [("text", Value.str "raw")] false]

/-- A structured payload that overrides one dispatcher default. -/
def demoD : Dict :=
  [("text", Value.str "hello"), ("type", Value.str "ping")]

/-! ### Dictionary lemmas -/

theorem Dict.get?_set_eq (d : Dict) (k : String) (v : Value) :
    Dict.get? (Dict.set d k v) k = some v := by
  induction d with
  | nil => simp [Dict.set, Dict.get?]
  | cons kv rest ih =>
    by_cases h : kv.1 = k
    · simp [Dict.set, Dict.get?, h]
    · simp [Dict.set, Dict.get?, h, ih]

theorem Dict.get?_set_ne (d : Dict) (k k' : String) (v : Value) (h : k ≠ k') :
    Dict.get? (Dict.set d k v) k' = Dict.get? d k' := by
  induction d with
  | nil => simp [Dict.set, Dict.get?, h]
  | cons kv rest ih =>
    by_cases hk : kv.1 = k
    · simp [Dict.set, Dict.get?, hk, h]
    · simp only [Dict.set, hk, if_false, Dict.get?]
      by_cases hk' : kv.1 = k'
      · simp [hk']
      · simp [hk', ih]

theorem Dict.get?_eq_none_of_not_mem (d : Dict) (k : String)
    (h : k ∉ d.map Prod.fst) : Dict.get? d k = none := by
  induction d with
  | nil => rfl
  | cons kv rest ih =>
    simp only [List.map_cons, List.mem_cons] at h
    push_neg at h
    have hne : ¬kv.1 = k := fun hc => h.1 hc.symm
    simp [Dict.get?, hne, ih h.2]

theorem Dict.get?_update_of_none (base d : Dict) (k : String)
    (h : Dict.get? d k = none) :
    Dict.get? (Dict.update base d) k = Dict.get? base k := by
  induction d generalizing base with
  | nil => rfl
  | cons kv rest ih =>
    simp only [Dict.get?] at h
    by_cases hk : kv.1 = k
    · simp [hk] at h
    · simp only [hk, if_false] at h
      show Dict.get? (Dict.update (Dict.set base kv.1 kv.2) rest) k = _
      rw [ih _ h, Dict.get?_set_ne _ _ _ _ hk]

theorem Dict.get?_update_of_some (base d : Dict) (k : String) (v : Value)
    (hnd : (d.map Prod.fst).Nodup) (h : Dict.get? d k = some v) :
    Dict.get? (Dict.update base d) k = some v := by
  induction d generalizing base with
  | nil => simp [Dict.get?] at h
  | cons kv rest ih =>
    simp only [List.map_cons, List.nodup_cons] at hnd
    simp only [Dict.get?] at h
    by_cases hk : kv.1 = k
    · simp only [hk, if_true] at h
      cases h
      show Dict.get? (Dict.update (Dict.set base kv.1 kv.2) rest) k = _
      have hrest : Dict.get? rest k = none :=
        Dict.get?_eq_none_of_not_mem rest k (hk ▸ hnd.1)
      rw [Dict.get?_update_of_none _ _ _ hrest, hk, Dict.get?_set_eq]
    · simp only [hk, if_false] at h
      show Dict.get? (Dict.update (Dict.set base kv.1 kv.2) rest) k = some v
      exact ih (Dict.set base kv.1 kv.2) hnd.2 h

/-! ### Ring-buffer lemmas -/

theorem dequeAppend_length_le (cap : Nat) (buf : List Value) (e : Value)
    (h : buf.length ≤ cap) : (dequeAppend cap buf e).length ≤ cap := by
  simp only [dequeAppend, List.length_drop, List.length_append,
    List.length_cons, List.length_nil]
  omega

theorem foldl_dequeAppend (cap : Nat) (es : List Value) :
    ∀ buf : List Value, buf.length ≤ cap →
      es.foldl (dequeAppend cap) buf =
        (buf ++ es).drop (buf.length + es.length - cap) := by
  induction es with
  | nil =>
    intro buf h
    simp [Nat.sub_eq_zero_of_le h]
  | cons e es ih =>
    intro buf h
    rw [List.foldl_cons, ih _ (dequeAppend_length_le cap buf e h)]
    have hle : buf.length + 1 - cap ≤ (buf ++ [e]).length := by
      simp only [List.length_append, List.length_cons, List.length_nil]
      omega
    calc (dequeAppend cap buf e ++ es).drop
          ((dequeAppend cap buf e).length + es.length - cap)
        = (((buf ++ [e]) ++ es).drop (buf.length + 1 - cap)).drop
            ((dequeAppend cap buf e).length + es.length - cap) := by
          rw [show dequeAppend cap buf e =
                (buf ++ [e]).drop (buf.length + 1 - cap) from rfl,
              List.drop_append_of_le_length hle]
      _ = ((buf ++ [e]) ++ es).drop
            ((buf.length + 1 - cap) +
              ((dequeAppend cap buf e).length + es.length - cap)) := by
          rw [List.drop_drop]
      _ = (buf ++ e :: es).drop (buf.length + (e :: es).length - cap) := by
          have hde : (dequeAppend cap buf e).length =
              buf.length + 1 - (buf.length + 1 - cap) := by
            simp [dequeAppend, List.length_drop]
          rw [List.append_assoc, List.singleton_append]
          congr 1
          simp only [hde, List.length_cons]
          omega

theorem foldl_log_recent (es : List Value) :
    ∀ st : BotState, (es.foldl Dizzybot.log st).recent =
      es.foldl (dequeAppend st.maxRecent) st.recent := by
  induction es with
  | nil => intro st; rfl
  | cons e es ih =>
    intro st
    rw [List.foldl_cons, List.foldl_cons, ih]
    rfl

/-! ### Claim theorems -/

/-- C1: refutation on the code — in a valid send-then-write sequence on a
connected client, `send` returns id 0 but `write` raises `NameError`
(it delivers the undefined variable `full_msg`) instead of returning id 1,
so the returned ids do not continue the gapless sequence and `write` never
increments the Message Counter. -/
theorem send_then_write_raises :
    (runOps stLive opsC1).2 = .error (.nameError "full_msg") ∧
    (runOps stLive opsC1).1.msgId = 1 :=
  ⟨rfl, rfl⟩

/-- C2: refutation on the code — `write` injects the id into the caller's
envelope but then delivers the undefined variable `full_msg`, raising
`NameError` instead of delivering the envelope and returning the id. -/
theorem write_raises_name_error :
    Dizzybot.write stLive rawMsg false =
      (stLive, .error (.nameError "full_msg")) := rfl

/-- C3: refutation of the claim as stated — on an HTTP 500 fetch response
`_on_rtm_start` raises `RuntimeError` rather than returning normally. -/
theorem rtm_start_500_raises :
    (Dizzybot.on_rtm_start st0 resp500).2 = some DizzyError.runtimeError := rfl

/-- C3 (amended): on a failed session-endpoint fetch (HTTP status >= 400,
or a falsy `ok` flag in an object body) the manager appends exactly one
log-tagged diagnostic entry, leaves the Connection Handle absent, starts no
websocket connection, and raises `RuntimeError` after logging; the next
health-check tick issues a fresh fetch. -/
theorem fetch_failure_logged_and_aborted (st : BotState) (resp : HttpResp)
    (hws : st.wsConnected = false)
    (hfail : 400 ≤ resp.code ∨
      (resp.code < 400 ∧ ∃ info okv, resp.body = Value.obj info ∧
        Dict.get? info "ok" = some okv ∧ Value.truthy okv = false)) :
    ∃ e, logTagged e = true ∧
      (Dizzybot.on_rtm_start st resp).1.recent =
        dequeAppend st.maxRecent st.recent e ∧
      (Dizzybot.on_rtm_start st resp).1.wsConnected = false ∧
      (Dizzybot.on_rtm_start st resp).1.connectAttempts = st.connectAttempts ∧
      (Dizzybot.on_rtm_start st resp).2 = some DizzyError.runtimeError ∧
      (Dizzybot.on_check_health (Dizzybot.on_rtm_start st resp).1).fetchAttempts =
        (Dizzybot.on_rtm_start st resp).1.fetchAttempts + 1 := by
  rcases hfail with hge | ⟨hlt, info, okv, hbody, hok, htr⟩
  · have hrun : Dizzybot.on_rtm_start st resp =
        (Dizzybot.log st (fetchFailEvt resp), some .runtimeError) := by
      simp [Dizzybot.on_rtm_start, hge]
    refine ⟨fetchFailEvt resp, rfl, ?_⟩
    rw [hrun]
    refine ⟨rfl, hws, rfl, rfl, ?_⟩
    simp [Dizzybot.on_check_health, Dizzybot.log, Dizzybot.rtm_start, hws]
  · have hrun : Dizzybot.on_rtm_start st resp =
        (Dizzybot.log st (rtmFailEvt info), some .runtimeError) := by
      simp [Dizzybot.on_rtm_start, Nat.not_le.mpr hlt, hbody, hok, htr]
    refine ⟨rtmFailEvt info, rfl, ?_⟩
    rw [hrun]
    refine ⟨rfl, hws, rfl, rfl, ?_⟩
    simp [Dizzybot.on_check_health, Dizzybot.log, Dizzybot.rtm_start, hws]

theorem fetch_failure_logged_and_aborted_witness :
    st0.wsConnected = false ∧
    (∃ e, logTagged e = true ∧
      (Dizzybot.on_rtm_start st0 resp500).1.recent =
        dequeAppend st0.maxRecent st0.recent e ∧
      (Dizzybot.on_rtm_start st0 resp500).1.wsConnected = false ∧
      (Dizzybot.on_rtm_start st0 resp500).1.connectAttempts = st0.connectAttempts ∧
      (Dizzybot.on_rtm_start st0 resp500).2 = some DizzyError.runtimeError ∧
      (Dizzybot.on_check_health (Dizzybot.on_rtm_start st0 resp500).1).fetchAttempts =
        (Dizzybot.on_rtm_start st0 resp500).1.fetchAttempts + 1) :=
  ⟨rfl, fetch_failure_logged_and_aborted st0 resp500 rfl (Or.inl (by decide))⟩

/-- C4: starting from a fresh instance with capacity `cap`, after any
sequence of `log` (record) calls the ring buffer holds exactly the last
`min N cap` entries, in arrival order; `log` is a total function, so a
record call never raises. -/
theorem record_keeps_last_min (tok : String) (cap : Nat) (es : List Value) :
    (es.foldl Dizzybot.log (dizzybotInit tok cap)).recent =
      es.drop (es.length - cap) ∧
    (es.foldl Dizzybot.log (dizzybotInit tok cap)).recent.length =
      min es.length cap := by
  have h1 : (es.foldl Dizzybot.log (dizzybotInit tok cap)).recent =
      es.foldl (dequeAppend cap) [] := by
    rw [foldl_log_recent]
    rfl
  have h2 : es.foldl (dequeAppend cap) [] = es.drop (es.length - cap) := by
    have h := foldl_dequeAppend cap es [] (by simp)
    simpa using h
  refine ⟨h1.trans h2, ?_⟩
  rw [h1, h2, List.length_drop]
  omega

/-- C5: an exception raised by any of the three application hooks is caught
at its call site and converted into exactly one exception-tagged log entry;
`on_ws_message` and `on_ws_connect` return normally (they are total
functions of the state), so the exception never escapes the manager. -/
theorem hook_exceptions_logged (hooks : Hooks) (st : BotState) (evt : Value)
    (ex : String) :
    (hooks.on_event (Dizzybot.log st evt) evt = some ex →
      Dizzybot.on_ws_message hooks st (some evt) =
        Dizzybot.log (Dizzybot.log st evt) (excEvt ex)) ∧
    (hooks.on_disconnect { Dizzybot.log st discEvt with wsConnected := false } = some ex →
      Dizzybot.on_ws_message hooks st none =
        Dizzybot.log { Dizzybot.log st discEvt with wsConnected := false } (excEvt ex)) ∧
    (hooks.on_connect { Dizzybot.log st connEvt with wsConnected := true } = some ex →
      Dizzybot.on_ws_connect hooks st =
        Dizzybot.log { Dizzybot.log st connEvt with wsConnected := true } (excEvt ex)) := by
  refine ⟨fun h => ?_, fun h => ?_, fun h => ?_⟩ <;>
    simp [Dizzybot.on_ws_message, Dizzybot.on_ws_connect, h]

theorem hook_exceptions_logged_witness :
    boomHooks.on_disconnect { Dizzybot.log st0 discEvt with wsConnected := false } =
      some "boom" ∧
    Dizzybot.on_ws_message boomHooks st0 none =
      Dizzybot.log { Dizzybot.log st0 discEvt with wsConnected := false }
        (excEvt "boom") :=
  ⟨rfl, (hook_exceptions_logged boomHooks st0 Value.null "boom").2.1 rfl⟩

/-- C6: a non-rich `send` with no live Connection Handle fails synchronously
with the delivery error and returns the state unchanged — nothing is queued
on any path and the Message Counter is not incremented. -/
theorem send_no_handle_fails (st : BotState) (m : Msg) (ch : String)
    (hws : st.wsConnected = false) (hm : Msg.isValid m = true) :
    Dizzybot.send st m ch false =
      (st, .error (.attributeError "write_message")) := by
  cases m with
  | dict d => simp [Dizzybot.send, hws]
  | str s => simp [Dizzybot.send, hws]
  | other => simp [Msg.isValid] at hm

theorem send_no_handle_fails_witness :
    st0.wsConnected = false ∧ Msg.isValid (.str "hi") = true ∧
    Dizzybot.send st0 (.str "hi") "C123" false =
      (st0, .error (.attributeError "write_message")) :=
  ⟨rfl, rfl, send_no_handle_fails st0 (.str "hi") "C123" rfl rfl⟩

/-- C7: `respond` on an event whose type is not "message" or whose
`reply_to` marker is non-null returns null with the state — deliveries and
Message Counter included — unchanged. -/
theorem respond_ineligible_noop (st : BotState) (evt : Dict) (m : Msg)
    (th r : Bool) (h : isEligible evt = false) :
    Dizzybot.respond st evt m th r = (st, .ok none) := by
  simp [Dizzybot.respond, h]

theorem respond_ineligible_noop_witness :
    isEligible evtIneligible = false ∧
    Dizzybot.respond st0 evtIneligible (.str "x") true false = (st0, .ok none) :=
  ⟨rfl, respond_ineligible_noop st0 evtIneligible (.str "x") true false rfl⟩

/-- C10: on the stream-closure sentinel the manager appends the
disconnection log entry and clears the Connection Handle before invoking
the disconnect hook, so the hook observes an absent handle, and the handle
stays absent after processing whether or not the hook raises. -/
theorem disconnect_clears_handle_before_hook (hooks : Hooks) (st : BotState) :
    ({ Dizzybot.log st discEvt with wsConnected := false } : BotState).wsConnected
        = false ∧
    ({ Dizzybot.log st discEvt with wsConnected := false } : BotState).recent =
      dequeAppend st.maxRecent st.recent discEvt ∧
    Dizzybot.on_ws_message hooks st none =
      (match hooks.on_disconnect
          { Dizzybot.log st discEvt with wsConnected := false } with
       | some ex =>
          Dizzybot.log { Dizzybot.log st discEvt with wsConnected := false }
            (excEvt ex)
       | none => { Dizzybot.log st discEvt with wsConnected := false }) ∧
    (Dizzybot.on_ws_message hooks st none).wsConnected = false := by
  refine ⟨rfl, rfl, rfl, ?_⟩
  show (match hooks.on_disconnect
          { Dizzybot.log st discEvt with wsConnected := false } with
        | some ex =>
            Dizzybot.log { Dizzybot.log st discEvt with wsConnected := false }
              (excEvt ex)
        | none =>
            { Dizzybot.log st discEvt with wsConnected := false }).wsConnected
      = false
  cases hooks.on_disconnect
      { Dizzybot.log st discEvt with wsConnected := false } <;> rfl


/-- C8: for an eligible inbound message event, `respond` with thread=true
sets the delivered envelope's `thread_ts` to the event's existing thread
anchor when the key is present and otherwise to the event's own timestamp
(`evt.get('thread_ts', evt.get('ts'))`); with thread=false no anchor is
inferred — the envelope carries exactly the caller-supplied anchor, if
any. -/
theorem respond_thread_anchor (st : BotState) (evt : Dict) (m : Msg)
    (ch : Value) (hel : isEligible evt = true)
    (hch : Dict.get? evt "channel" = some ch) (hm : Msg.isValid m = true)
    (hnd : Msg.keysNodup m) :
    (∃ e, (Dizzybot.respond st evt m true true).1.httpPosts =
        st.httpPosts ++ [e] ∧
      Dict.get? e "thread_ts" = some (threadAnchor evt)) ∧
    (∃ e, (Dizzybot.respond st evt m false true).1.httpPosts =
        st.httpPosts ++ [e] ∧
      Dict.get? e "thread_ts" = Msg.suppliedThread m) := by
  constructor
  · cases m with
    | other => simp [Msg.isValid] at hm
    | str s =>
      refine ⟨Dict.set (Dict.set (Dict.set
          [("id", Value.int st.msgId), ("type", Value.str "message"),
           ("channel", ch)] "text" (Value.str s)) "thread_ts"
          (threadAnchor evt)) "as_user" (Value.bool true), ?_, ?_⟩
      · simp [Dizzybot.respond, hel, hch, Dizzybot.post_message]
      · rw [Dict.get?_set_ne _ "as_user" "thread_ts" _ (by decide),
          Dict.get?_set_eq]
    | dict d =>
      refine ⟨Dict.set (Dict.set (Dict.update
          [("id", Value.int st.msgId), ("type", Value.str "message"),
           ("channel", ch)] d) "thread_ts"
          (threadAnchor evt)) "as_user" (Value.bool true), ?_, ?_⟩
      · simp [Dizzybot.respond, hel, hch, Dizzybot.post_message]
      · rw [Dict.get?_set_ne _ "as_user" "thread_ts" _ (by decide),
          Dict.get?_set_eq]
  · cases m with
    | other => simp [Msg.isValid] at hm
    | str s =>
      refine ⟨Dict.set (Dict.set
          [("id", Value.int st.msgId), ("type", Value.str "message"),
           ("channel", ch)] "text" (Value.str s)) "as_user"
          (Value.bool true), ?_, ?_⟩
      · simp [Dizzybot.respond, hel, hch, Dizzybot.post_message]
      · rw [Dict.get?_set_ne _ "as_user" "thread_ts" _ (by decide),
          Dict.get?_set_ne _ "text" "thread_ts" _ (by decide)]
        rfl
    | dict d =>
      refine ⟨Dict.set (Dict.update
          [("id", Value.int st.msgId), ("type", Value.str "message"),
           ("channel", ch)] d) "as_user" (Value.bool true), ?_, ?_⟩
      · simp [Dizzybot.respond, hel, hch, Dizzybot.post_message]
      · rw [Dict.get?_set_ne _ "as_user" "thread_ts" _ (by decide)]
        cases hd : Dict.get? d "thread_ts" with
        | some v =>
          rw [Dict.get?_update_of_some _ _ _ _ hnd hd]
          simp [Msg.suppliedThread, hd]
        | none =>
          rw [Dict.get?_update_of_none _ _ _ hd]
          simp [Msg.suppliedThread, hd, Dict.get?]

theorem respond_thread_anchor_witness :
    isEligible evtMsg = true ∧
    (∃ e, (Dizzybot.respond st0 evtMsg (.str "yo") true true).1.httpPosts =
        st0.httpPosts ++ [e] ∧
      Dict.get? e "thread_ts" = some (threadAnchor evtMsg)) :=
  ⟨rfl, (respond_thread_anchor st0 evtMsg (.str "yo") (Value.str "C9")
    rfl rfl rfl trivial).1⟩

/-- C9: payload handling in `send` and `respond`: a structured payload is
merged into the envelope the dispatcher builds and the caller's binding
wins on every key it supplies; a plain-text payload is placed in the `text`
field; any other payload type raises `TypeError` synchronously and leaves
the state — Message Counter included — unchanged. -/
theorem message_payload_handling (st : BotState) (ch : String) (d : Dict)
    (s : String) (hws : st.wsConnected = true)
    (hnd : (d.map Prod.fst).Nodup) :
    (∃ e, (Dizzybot.send st (.dict d) ch false).1.wsWrites =
        st.wsWrites ++ [e] ∧
      ∀ k v, Dict.get? d k = some v → Dict.get? e k = some v) ∧
    (∃ e, (Dizzybot.send st (.str s) ch false).1.wsWrites =
        st.wsWrites ++ [e] ∧
      Dict.get? e "text" = some (Value.str s)) ∧
    Dizzybot.send st .other ch false =
      (st, .error (.typeError "unsupported msg type")) ∧
    (∀ evt chv, isEligible evt = true → Dict.get? evt "channel" = some chv →
      Dizzybot.respond st evt .other true false =
        (st, .error (.typeError "unsupported msg type")) ∧
      ∃ e, (Dizzybot.respond st evt (.dict d) false false).1.wsWrites =
          st.wsWrites ++ [e] ∧
        ∀ k v, Dict.get? d k = some v → Dict.get? e k = some v) := by
  refine ⟨⟨Dict.update [("id", Value.int st.msgId),
      ("type", Value.str "message"), ("channel", Value.str ch)] d,
      ?_, fun k v h => Dict.get?_update_of_some _ _ _ _ hnd h⟩,
    ⟨Dict.set [("id", Value.int st.msgId), ("type", Value.str "message"),
      ("channel", Value.str ch)] "text" (Value.str s),
      ?_, Dict.get?_set_eq _ _ _⟩,
    ?_, fun evt chv hel hch => ⟨?_,
      ⟨Dict.update [("id", Value.int st.msgId),
        ("type", Value.str "message"), ("channel", chv)] d,
        ?_, fun k v h => Dict.get?_update_of_some _ _ _ _ hnd h⟩⟩⟩
  · simp [Dizzybot.send, hws]
  · simp [Dizzybot.send, hws]
  · simp [Dizzybot.send]
  · simp [Dizzybot.respond, hel, hch]
  · simp [Dizzybot.respond, hel, hch, hws]

theorem message_payload_handling_witness :
    stLive.wsConnected = true ∧ (demoD.map Prod.fst).Nodup ∧
    Dizzybot.send stLive .other "C123" false =
      (stLive, .error (.typeError "unsupported msg type")) :=
  ⟨rfl, by decide,
    (message_payload_handling stLive "C123" demoD "hi" rfl (by decide)).2.2.1⟩
